import Mathlib

/-!
Verification development for the short-video-platform repository.

The embedding models the client-side persistence layer (`src/utils/idb.ts`),
the auth service (`src/utils/auth.ts`), the media-ingestion adapter
(`src/utils/cloudinary.ts`, demo/local mode), and the Watch-page domain
handlers (`src/pages/Watch.tsx`).

Conventions of the embedding:
  - An IndexedDB object store is modelled as a Lean list of records.  The
    keyed-store semantics of the `idb` wrapper are preserved operation by
    operation: `add` fails with a Constraint error when the primary key or a
    unique secondary-index value collides; `put` overwrites the record having
    the same primary key (and inserts otherwise); `getAll` / `getAllFromIndex`
    return records ordered by the (index) key, modelled by an insertion sort.
  - JavaScript numbers used as counters (`likes`, `views`) are modelled as
    `Int` (the code can drive `likes` negative via minus-one).
  - Sources of nondeterminism in the code (`crypto.randomUUID()`,
    `Date.now()`, `bcrypt.hash`, `bcrypt.compare`, browser media decoding)
    become explicit parameters of the corresponding Lean functions.
  - An `async` function without try/catch that throws mid-way leaves the
    writes already performed in place; such functions return the partial
    state together with a flag or an `Except` describing the failure.
-/

/-- Storage-level failure: IndexedDB `add` rejecting on a duplicate primary
key or a duplicate value in a unique secondary index (ConstraintError). -/
inductive StoreError where
  | constraint
deriving DecidableEq, Repr

/-- The `User` record of `src/types/index.ts`. -/
structure User where
  id : String
  username : String
  email : String
  passwordHash : String
  bio : Option String := none
  avatarUrl : Option String := none
  createdAt : Nat
  lastLogin : Option Nat := none
deriving DecidableEq, Repr

/-- The `Comment` record of `src/types/index.ts`. -/
structure Comment where
  id : String
  userId : String
  username : String
  text : String
  timestamp : Nat
deriving DecidableEq, Repr

/-- The `Video` record of `src/types/index.ts`.  `likes` and `views` are
JavaScript numbers, modelled as `Int`. -/
structure Video where
  id : String
  userId : String
  username : String
  cloudinaryUrl : String
  thumbnailUrl : String
  caption : String
  tags : List String
  duration : Nat
  resolution : String
  likes : Int
  comments : List Comment
  views : Int
  uploadedAt : Nat
deriving DecidableEq, Repr

/-- The `type` enumeration of the `Log` record. -/
inductive LogType where
  | login
  | logout
  | signup
  | upload
  | delete
  | like
  | comment
  | search
  | view
deriving DecidableEq, Repr

/-- The `Log` record of `src/types/index.ts`; the loose
`Record<string, any>` metadata is modelled as a string association list. -/
structure LogEntry where
  id : String
  type : LogType
  message : String
  timestamp : Nat
  metadata : List (String × String) := []
deriving DecidableEq, Repr

/-- A record of the `session` store (`{ userId, timestamp }`). -/
structure Session where
  userId : String
  timestamp : Nat
deriving DecidableEq, Repr

/-- A browser `Blob` / `File`: raw bytes plus a MIME type string. -/
structure Blob where
  bytes : List Nat
  mimeType : String
deriving DecidableEq, Repr

/-- The `size` of a blob or file: the number of raw bytes. -/
def Blob.size (b : Blob) : Nat := b.bytes.length

/-- The state of the `shortlyx-db` IndexedDB database: one list per object
store (the `settings` store is irrelevant to every claim and omitted).
`videoBlobs` is keyed externally by a `publicId` string. -/
structure DB where
  users : List User
  videos : List Video
  videoBlobs : List (String × Blob)
  logs : List LogEntry
  session : List Session
deriving DecidableEq, Repr

/-- The empty database (fresh `shortlyx-db` after `getDB`'s upgrade). -/
def DB.empty : DB := ⟨[], [], [], [], []⟩

/-- Insert into a list sorted by `le` (used to model index-ordered
`getAll` results). -/
def insertLe {α : Type} (le : α → α → Bool) (a : α) : List α → List α
  | [] => [a]
  | b :: t => if le a b then a :: b :: t else b :: insertLe le a t

/-- Insertion sort by `le`; models the key ordering of an IndexedDB
index cursor. -/
def sortLe {α : Type} (le : α → α → Bool) : List α → List α
  | [] => []
  | a :: t => insertLe le a (sortLe le t)

/-! The `idb.ts` data-access layer. -/

/-- `getUserByUsername`: lookup through the unique `by-username` index. -/
def getUserByUsername (db : DB) (username : String) : Option User :=
  db.users.find? (fun u => u.username == username)

/-- `getUserById`: primary-key lookup in the `users` store. -/
def getUserById (db : DB) (id : String) : Option User :=
  db.users.find? (fun u => u.id == id)

/-- `createUser`: `db.add('users', user)`.  `add` rejects with a
ConstraintError when the primary key `id` or a value of the unique
`by-username` / `by-email` indexes already exists. -/
def createUser (db : DB) (user : User) : Except StoreError DB :=
  if db.users.any (fun u => u.id == user.id) then .error .constraint
  else if db.users.any (fun u => u.username == user.username) then .error .constraint
  else if db.users.any (fun u => u.email == user.email) then .error .constraint
  else .ok { db with users := db.users ++ [user] }

/-- `saveVideo`: `db.add('videos', video)`; rejects on a duplicate `id`
(the `by-user` and `by-date` indexes are not unique). -/
def saveVideo (db : DB) (v : Video) : Except StoreError DB :=
  if db.videos.any (fun w => w.id == v.id) then .error .constraint
  else .ok { db with videos := db.videos ++ [v] }

/-- `updateVideo`: `db.put('videos', video)`; overwrites the record with the
same primary key, inserting when absent. -/
def updateVideo (db : DB) (v : Video) : DB :=
  { db with videos := db.videos.filter (fun w => w.id != v.id) ++ [v] }

/-- `deleteVideo`: `db.delete('videos', id)`. -/
def deleteVideo (db : DB) (id : String) : DB :=
  { db with videos := db.videos.filter (fun w => w.id != id) }

/-- `getAllVideos`: `db.getAllFromIndex('videos', 'by-date')` — all video
records ordered by `uploadedAt`. -/
def getAllVideos (db : DB) : List Video :=
  sortLe (fun a b => a.uploadedAt ≤ b.uploadedAt) db.videos

/-- `saveVideoBlob`: `db.put('videoBlobs', blob, publicId)` — keyed
overwrite under the external key `publicId`. -/
def saveVideoBlob (db : DB) (publicId : String) (blob : Blob) : DB :=
  { db with videoBlobs :=
      db.videoBlobs.filter (fun kv => kv.1 != publicId) ++ [(publicId, blob)] }

/-- `getVideoBlob`: `db.get('videoBlobs', publicId)`. -/
def getVideoBlob (db : DB) (publicId : String) : Option Blob :=
  (db.videoBlobs.find? (fun kv => kv.1 == publicId)).map (fun kv => kv.2)

/-- `deleteVideoBlob`: `db.delete('videoBlobs', publicId)`. -/
def deleteVideoBlob (db : DB) (publicId : String) : DB :=
  { db with videoBlobs := db.videoBlobs.filter (fun kv => kv.1 != publicId) }

/-- `addLog`: builds the full `Log` from the caller-supplied type, message
and metadata plus a fresh `crypto.randomUUID()` id and `Date.now()`
timestamp (both explicit parameters here), then `db.add('logs', fullLog)`,
which rejects on a duplicate id. -/
def addLog (db : DB) (t : LogType) (message : String)
    (metadata : List (String × String)) (logId : String) (now : Nat) :
    Except StoreError DB :=
  if db.logs.any (fun l => l.id == logId) then .error .constraint
  else .ok { db with logs := db.logs ++ [⟨logId, t, message, now, metadata⟩] }

/-- `saveSession`: `db.put('session', { userId, timestamp })` on a store
whose keyPath is `userId` — it overwrites the session record of the same
user and leaves records of other users in place. -/
def saveSession (db : DB) (userId : String) (now : Nat) : DB :=
  { db with session :=
      db.session.filter (fun s => s.userId != userId) ++ [⟨userId, now⟩] }

/-- `getSession`: `db.getAll('session')` returns records in key
(`userId`) order and the code takes `sessions[0]`. -/
def getSession (db : DB) : Option Session :=
  (sortLe (fun a b => a.userId == b.userId || decide (a.userId < b.userId))
    db.session).head?

/-- `clearSession`: `db.clear('session')` — removes every session record. -/
def clearSession (db : DB) : DB :=
  { db with session := [] }

/-! The `auth.ts` service. -/

/-- The shape of the objects returned by `signup` and `login`:
`{ success, message, user? }`. -/
structure AuthResult where
  success : Bool
  message : String
  user : Option User
deriving DecidableEq, Repr

/-- `signup(username, email, password)` from `auth.ts`.  `hash` stands for
`bcrypt.hash(password, 10)` (salted, cost 10), `newId` for
`crypto.randomUUID()`, `logId` for the uuid drawn inside `addLog`, `now`
for `Date.now()`.  Returns the caller-visible result together with the
database state after the call; the surrounding try/catch maps any storage
rejection to the generic failure result, with the writes already committed
left in place. -/
def signup (db : DB) (username email password : String)
    (hash : String → String) (newId logId : String) (now : Nat) :
    AuthResult × DB :=
  match getUserByUsername db username with
  | some _ => (⟨false, "Username already exists", none⟩, db)
  | none =>
    let user : User :=
      { id := newId, username := username, email := email,
        passwordHash := hash password, createdAt := now }
    match createUser db user with
    | .error _ => (⟨false, "Failed to create account", none⟩, db)
    | .ok db1 =>
      match addLog db1 .signup ("User " ++ username ++ " signed up") [] logId now with
      | .error _ => (⟨false, "Failed to create account", none⟩, db1)
      | .ok db2 => (⟨true, "Account created successfully", some user⟩, db2)

/-- `login(username, password)` from `auth.ts`.  `compare p h` stands for
`bcrypt.compare(p, h)`.  Both failure branches return the same literal
`'Invalid username or password'`; on success the session is written first
and the `login` log appended second, the try/catch mapping a storage
rejection to the generic `'Login failed'` result. -/
def login (db : DB) (username password : String)
    (compare : String → String → Bool) (logId : String) (now : Nat) :
    AuthResult × DB :=
  match getUserByUsername db username with
  | none => (⟨false, "Invalid username or password", none⟩, db)
  | some user =>
    if compare password user.passwordHash then
      let db1 := saveSession db user.id now
      match addLog db1 .login ("User " ++ username ++ " logged in")
          [("userId", user.id)] logId now with
      | .error _ => (⟨false, "Login failed", none⟩, db1)
      | .ok db2 => (⟨true, "Login successful", some user⟩, db2)
    else (⟨false, "Invalid username or password", none⟩, db)

/-- `logout()` from `auth.ts`: when a session exists, append a `logout` log
referencing its user, then clear the session store.  `logout` has no
try/catch, so a rejected `addLog` propagates before `clearSession` runs;
that case is the `.error` branch (the log `add` rejects atomically, so the
state is then unchanged). -/
def logout (db : DB) (logId : String) (now : Nat) : Except StoreError DB :=
  match getSession db with
  | some session =>
    match addLog db .logout "User logged out" [("userId", session.userId)] logId now with
    | .error e => .error e
    | .ok db1 => .ok (clearSession db1)
  | none => .ok (clearSession db)

/-- `getCurrentUser()` from `auth.ts`: resolve the session, if any, to its
`User` record; `null` when there is no session or the user is gone. -/
def getCurrentUser (db : DB) : Option User :=
  match getSession db with
  | none => none
  | some session => getUserById db session.userId

/-- `isAuthenticated()` from `auth.ts`: true iff a session record exists. -/
def isAuthenticated (db : DB) : Bool :=
  (getSession db).isSome

/-! String helpers mirroring the JavaScript operations used by the code. -/

/-- The ECMAScript WhiteSpace and LineTerminator code points recognised by
`String.prototype.trim`. -/
def isJsWhitespace (c : Char) : Bool :=
  [9, 10, 11, 12, 13, 32, 160, 5760, 8192, 8193, 8194, 8195, 8196, 8197,
    8198, 8199, 8200, 8201, 8202, 8232, 8233, 8239, 8287, 12288,
    65279].contains c.toNat

/-- JavaScript `String.prototype.trim`: strip leading and trailing
whitespace. -/
def jsTrim (s : String) : String :=
  String.mk (((s.data.dropWhile isJsWhitespace).reverse.dropWhile
    isJsWhitespace).reverse)

/-- The reserved local-mode URI scheme of `cloudinary.ts` / `Watch.tsx`. -/
def localScheme : String := "local://"

/-- JavaScript `url.startsWith('local://')`. -/
def startsWithLocal (s : String) : Bool :=
  localScheme.data.isPrefixOf s.data

/-- JavaScript `url.replace('local://', '')` as used in `Watch.tsx`: it is
only evaluated under a `startsWith('local://')` guard, where replacing the
first occurrence of the scheme is exactly dropping the 8-character
scheme. -/
def stripLocalScheme (s : String) : String :=
  String.mk (s.data.drop localScheme.data.length)

/-! The `cloudinary.ts` media-ingestion adapter, demo/local mode. -/

/-- The `CloudinaryUploadResponse` shape returned by both upload modes. -/
structure CloudinaryUploadResponse where
  secure_url : String
  public_id : String
  format : String
  duration : Nat
  width : Nat
  height : Nat
  bytes : Nat
  thumbnail_url : String
deriving DecidableEq, Repr

/-- JavaScript `file.type.split('/')[1] || 'mp4'` — the second
slash-separated component of the MIME type, falling back to `'mp4'` when it
is absent or empty. -/
def fileFormat (mimeType : String) : String :=
  match (mimeType.splitOn "/")[1]? with
  | some s => if s == "" then "mp4" else s
  | none => "mp4"

/-- `mockUpload` from `cloudinary.ts` (demo/local mode), reduced to its
persistent effect and return value.  The synthesized progress ticks are UI
only; the browser-decoded `duration`, `videoWidth`, `videoHeight` and the
canvas-rendered `thumbnailUrl` are explicit parameters.  The function
generates `publicId = 'local_' + Date.now()`, persists the raw file under
it in the `videoBlobs` store, and returns a response whose `secure_url`
uses the reserved `local://` scheme and whose `bytes` is `file.size`. -/
def mockUpload (db : DB) (file : Blob) (now : Nat)
    (duration width height : Nat) (thumbnailUrl : String) :
    CloudinaryUploadResponse × DB :=
  let publicId := "local_" ++ toString now
  let db1 := saveVideoBlob db publicId file
  (⟨localScheme ++ publicId, publicId, fileFormat file.mimeType,
    duration, width, height, file.size, thumbnailUrl⟩, db1)

/-! The Watch-page handlers of `src/pages/Watch.tsx`.  These are the
spec's Domain Services: `loadVideo` is `recordView`, `handleLike` is
`toggleLike`, `handleComment` is `postComment`, `handleDelete` is
`deleteVideo(video, requestingUser)`. -/

/-- Outcome of the local-URI resolution effect in `Watch.tsx`. -/
inductive ResolveOutcome where
  | resolved (blob : Blob)
  | unavailable
  | direct (url : String)
deriving DecidableEq, Repr

/-- The retry loop of `resolveLocalUrl`: attempts are numbered from 1;
`fetch a` is the result of `getVideoBlob` at attempt `a` (the store may
gain the blob between attempts, which is the reason the loop exists);
`remaining` counts the attempts still allowed. -/
def retryGetBlob (fetch : Nat → Option Blob) : Nat → Nat → Option Blob
  | _, 0 => none
  | attempt, n + 1 =>
    match fetch attempt with
    | some b => some b
    | none => retryGetBlob fetch (attempt + 1) n

/-- `maxAttempts = 3` in `resolveLocalUrl`. -/
def maxAttempts : Nat := 3

/-- The backoff before the next attempt: `setTimeout(res, 250 * attempt)`
milliseconds after failed attempt number `attempt`. -/
def backoffMs (attempt : Nat) : Nat := 250 * attempt

/-- `resolveLocalUrl` from `Watch.tsx`: a `local://` URI is stripped of its
scheme and the blob is fetched from the `videoBlobs` store with up to
`maxAttempts` tries; when every try misses, the page enters the
video-unavailable error state.  Any other URI is assigned directly as the
video element's source. -/
def resolveLocalUrl (url : String) (fetch : Nat → Option Blob) :
    ResolveOutcome :=
  if startsWithLocal url then
    match retryGetBlob fetch 1 maxAttempts with
    | some b => .resolved b
    | none => .unavailable
  else .direct url

/-- `loadVideo` from `Watch.tsx` (the spec's `recordView`): find the video
by id among `getAllVideos()`, persist it with `views` incremented by 1 and
append a `view` log.  The returned triple is (video shown on the page,
database state, whether the log append succeeded — `loadVideo` catches
errors, so a rejected `addLog` leaves the incremented record in place). -/
def loadVideo (db : DB) (videoId : String) (logId : String) (now : Nat) :
    Option Video × DB × Bool :=
  match (getAllVideos db).find? (fun v => v.id == videoId) with
  | none => (none, db, true)
  | some currentVideo =>
    let updatedVideo := { currentVideo with views := currentVideo.views + 1 }
    let db1 := updateVideo db updatedVideo
    match addLog db1 .view ("Watched video: " ++ currentVideo.caption)
        [("videoId", videoId)] logId now with
    | .error _ => (some updatedVideo, db1, false)
    | .ok db2 => (some updatedVideo, db2, true)

/-- `handleLike` from `Watch.tsx` (the spec's `toggleLike`): write back the
video with `likes` decremented when `liked` currently holds and incremented
otherwise, then append a `like` log.  Returns the updated client-side
video, the database state, and whether the log append succeeded (the
update itself is persisted first). -/
def handleLike (db : DB) (video : Video) (liked : Bool)
    (logId : String) (now : Nat) : Video × DB × Bool :=
  let updatedVideo :=
    { video with likes := if liked then video.likes - 1 else video.likes + 1 }
  let db1 := updateVideo db updatedVideo
  match addLog db1 .like
      ((if liked then "Unliked" else "Liked") ++ " video: " ++ video.caption)
      [("videoId", video.id)] logId now with
  | .error _ => (updatedVideo, db1, false)
  | .ok db2 => (updatedVideo, db2, true)

/-- Outcome of `handleComment`. -/
inductive CommentOutcome where
  | rejected
  | posted (v : Video)
deriving DecidableEq, Repr

/-- `handleComment` from `Watch.tsx` (the spec's `postComment`): a comment
whose `trim()` is empty is rejected up front (JavaScript falsiness of the
empty string) and nothing is written; otherwise a `Comment` with a fresh
uuid, the author's id and username, the trimmed text and the current
timestamp is appended to the video's `comments`, the whole record is
persisted via `updateVideo`, and a `comment` log is appended.  The `Bool`
records whether the log append succeeded; the record write precedes it. -/
def handleComment (db : DB) (video : Video) (user : User) (comment : String)
    (commentId logId : String) (now : Nat) : CommentOutcome × DB × Bool :=
  if jsTrim comment == "" then (.rejected, db, true)
  else
    let newComment : Comment :=
      ⟨commentId, user.id, user.username, jsTrim comment, now⟩
    let updatedVideo := { video with comments := video.comments ++ [newComment] }
    let db1 := updateVideo db updatedVideo
    match addLog db1 .comment ("Commented on video: " ++ video.caption)
        [("videoId", video.id)] logId now with
    | .error _ => (.posted updatedVideo, db1, false)
    | .ok db2 => (.posted updatedVideo, db2, true)

/-- Outcome of `handleDelete`. -/
inductive DeleteOutcome where
  | permissionDenied
  | cancelled
  | deleted
  | failed
deriving DecidableEq, Repr

/-- `handleDelete` from `Watch.tsx` (the spec's
`deleteVideo(video, requestingUser)`): a requester other than the owning
user is turned away with the permission-denied toast before anything is
touched; then the `window.confirm` answer (`confirmed`) can cancel; on a
confirmed owner delete the local blob is removed when the URI uses the
local scheme (its failure only warns), the video record is deleted, and a
`delete` log is appended — a rejected log append is caught as the
delete-failed toast with the deletions already done. -/
def handleDelete (db : DB) (video : Video) (user : User) (confirmed : Bool)
    (logId : String) (now : Nat) : DeleteOutcome × DB :=
  if user.id != video.userId then (.permissionDenied, db)
  else if !confirmed then (.cancelled, db)
  else
    let db1 :=
      if startsWithLocal video.cloudinaryUrl then
        deleteVideoBlob db (stripLocalScheme video.cloudinaryUrl)
      else db
    let db2 := deleteVideo db1 video.id
    match addLog db2 .delete ("Deleted video: " ++ video.caption)
        [("videoId", video.id)] logId now with
    | .error _ => (.failed, db2)
    | .ok db3 => (.deleted, db3)

/-! Concrete fixtures used by counterexamples and witnesses. -/

/-- A hash stand-in for `bcrypt.hash(p, 10)` in concrete scenarios. -/
def hashDemo : String → String := fun p => "hashed:" ++ p

/-- A verifier stand-in for `bcrypt.compare` matching `hashDemo`. -/
def compareDemo : String → String → Bool := fun p h => hashDemo p == h

/-- A concrete stored user. -/
def aliceUser : User :=
  { id := "u-alice", username := "alice", email := "a@x.com",
    passwordHash := hashDemo "pw1", createdAt := 0 }

/-- A second concrete stored user. -/
def bobUser : User :=
  { id := "u-bob", username := "bob", email := "b@y.com",
    passwordHash := hashDemo "pw2", createdAt := 0 }

/-- A database holding exactly `aliceUser`. -/
def oneUserDB : DB := { DB.empty with users := [aliceUser] }

/-- A database holding `aliceUser` and `bobUser`. -/
def twoUserDB : DB := { DB.empty with users := [aliceUser, bobUser] }

/-- The user record `signup` creates in the `c2` scenario. -/
def c2User : User :=
  { id := "u1", username := "carol", email := "c@x.com",
    passwordHash := hashDemo "pw3", createdAt := 3 }

/-- A concrete stored blob. -/
def demoBlob : Blob := { bytes := [1, 2, 3, 4, 5], mimeType := "video/mp4" }

/-- A concrete video owned by `aliceUser`, stored in local demo mode. -/
def demoVideo : Video :=
  { id := "v1", userId := "u-alice", username := "alice",
    cloudinaryUrl := "local://local_7", thumbnailUrl := "data:image/jpeg;x",
    caption := "Hi", tags := ["fun"], duration := 5, resolution := "640x480",
    likes := 0, comments := [], views := 0, uploadedAt := 7 }

/-- A database holding both users, `demoVideo` and its blob. -/
def videoDB : DB :=
  { users := [aliceUser, bobUser], videos := [demoVideo],
    videoBlobs := [("local_7", demoBlob)], logs := [], session := [] }

/-! Helper lemmas about the store model. -/

/-- Membership is invariant under `insertLe`. -/
theorem mem_insertLe {α : Type} (le : α → α → Bool) (x a : α) (l : List α) :
    a ∈ insertLe le x l ↔ a = x ∨ a ∈ l := by
  induction l with
  | nil => simp [insertLe]
  | cons b t ih =>
    simp only [insertLe]
    split
    · simp
    · simp [ih]
      tauto

/-- Membership is invariant under `sortLe` (the index cursor returns the
same records, reordered). -/
theorem mem_sortLe {α : Type} (le : α → α → Bool) (a : α) (l : List α) :
    a ∈ sortLe le l ↔ a ∈ l := by
  induction l with
  | nil => simp [sortLe]
  | cons b t ih => simp [sortLe, mem_insertLe, ih]

/-- Keyed-store put followed by a lookup at the written key returns the
written record: the filter removed every record at that key, so `find?`
reaches the appended one. -/
theorem find?_filterNe_append {α : Type} (key : α → String) (l : List α)
    (v : α) :
    ((l.filter (fun w => key w != key v)) ++ [v]).find?
      (fun w => key w == key v) = some v := by
  induction l with
  | nil => simp [List.find?]
  | cons a t ih =>
    by_cases h : key a = key v
    · simp [List.filter_cons, h, ih]
    · simp only [List.filter_cons]
      have hb : (key a != key v) = true := by simp [h]
      rw [hb]
      simp only [if_true, List.cons_append, List.find?]
      have hq : (key a == key v) = false := by simp [h]
      rw [hq]
      exact ih

/-- `updateVideo` stores exactly the written record under its id. -/
theorem updateVideo_find? (db : DB) (v : Video) :
    (updateVideo db v).videos.find? (fun w => w.id == v.id) = some v :=
  find?_filterNe_append Video.id db.videos v

/-- A successful `addLog` only appends to the `logs` store; every other
store is untouched. -/
theorem addLog_frame (db : DB) (t : LogType) (msg : String)
    (md : List (String × String)) (logId : String) (now : Nat) (db' : DB)
    (h : addLog db t msg md logId now = .ok db') :
    db'.users = db.users ∧ db'.videos = db.videos ∧
    db'.videoBlobs = db.videoBlobs ∧ db'.session = db.session := by
  unfold addLog at h
  split at h
  · exact absurd h (by simp)
  · cases h
    exact ⟨rfl, rfl, rfl, rfl⟩

/-- A successful `createUser` appends the user and touches nothing else. -/
theorem createUser_ok (db : DB) (u : User) (db' : DB)
    (h : createUser db u = .ok db') :
    db'.users = db.users ++ [u] ∧ db'.videos = db.videos ∧
    db'.videoBlobs = db.videoBlobs ∧ db'.session = db.session ∧
    db'.logs = db.logs := by
  unfold createUser at h
  split at h
  · exact absurd h (by simp)
  · split at h
    · exact absurd h (by simp)
    · split at h
      · exact absurd h (by simp)
      · cases h
        exact ⟨rfl, rfl, rfl, rfl, rfl⟩

/-- `createUser` rejects with a Constraint violation whenever the unique
`by-email` index value collides. -/
theorem createUser_email_collision (db : DB) (u : User)
    (h : db.users.any (fun w => w.email == u.email) = true) :
    createUser db u = .error .constraint := by
  unfold createUser
  split
  · rfl
  · split
    · rfl
    · simp [h]

/-! Claim C1. -/

/-- C1 counterexample: the session collection is NOT limited to a single
record.  In the concrete two-user database, a successful login as alice
followed by a successful login as bob (no logout in between) leaves two
session records, because `saveSession` puts into a store keyed by `userId`
and therefore only overwrites a prior session of the same user. -/
theorem c1_counterexample :
    (login (login twoUserDB "alice" "pw1" compareDemo "L1" 1).2
        "bob" "pw2" compareDemo "L2" 2).2.session.length = 2 ∧
    (login twoUserDB "alice" "pw1" compareDemo "L1" 1).1.success = true ∧
    (login (login twoUserDB "alice" "pw1" compareDemo "L1" 1).2
        "bob" "pw2" compareDemo "L2" 2).1.success = true := by
  decide

/-- C1 amended: a successful login writes exactly one session record for
the logged-in user, overwriting a prior session of that same user only;
session records of other users are left in place (so the collection holds
at most one record per user id, not at most one record overall), and a
completed logout removes every session record. -/
theorem c1_amended (db : DB) (username password : String)
    (compare : String → String → Bool) (logId : String) (now : Nat)
    (u : User) (hu : getUserByUsername db username = some u)
    (hc : compare password u.passwordHash = true) :
    ((login db username password compare logId now).2.session.filter
        (fun s => s.userId == u.id) = [⟨u.id, now⟩] ∧
      (login db username password compare logId now).2.session.filter
        (fun s => s.userId != u.id) =
        db.session.filter (fun s => s.userId != u.id)) ∧
    (∀ db2 : DB, ∀ logId2 : String, ∀ now2 : Nat, ∀ db3 : DB,
      logout db2 logId2 now2 = .ok db3 → db3.session = []) := by
  constructor
  · have hs : (login db username password compare logId now).2.session =
        (saveSession db u.id now).session := by
      unfold login
      rw [hu]
      simp only [hc, if_true]
      cases h : addLog (saveSession db u.id now)
          .login ("User " ++ username ++ " logged in")
          [("userId", u.id)] logId now with
      | error e => simp
      | ok db2 => simpa using (addLog_frame _ _ _ _ _ _ _ h).2.2.2
    rw [hs]
    unfold saveSession
    constructor
    · simp only [List.filter_append, List.filter_filter]
      have h1 : ∀ s : Session,
          ((s.userId == u.id) && (s.userId != u.id)) = false := by
        intro s
        by_cases h : s.userId = u.id <;> simp [h]
      simp [h1, List.filter]
    · simp only [List.filter_append, List.filter_filter]
      simp [List.filter]
  · intro db2 logId2 now2 db3 h
    cases hg : getSession db2 with
    | none =>
      simp only [logout, hg] at h
      injection h with h2
      rw [← h2]
      rfl
    | some s =>
      cases ha : addLog db2 .logout "User logged out"
          [("userId", s.userId)] logId2 now2 with
      | error e => simp [logout, hg, ha] at h
      | ok dbl =>
        simp only [logout, hg, ha] at h
        injection h with h2
        rw [← h2]
        rfl

/-- C1 amended witness: in the two-user database, logging in as alice and
then logging out leaves the amended behaviour observable at concrete
inputs. -/
theorem c1_amended_witness :
    ((login twoUserDB "alice" "pw1" compareDemo "L1" 5).2.session.filter
        (fun s => s.userId == aliceUser.id) = [⟨aliceUser.id, 5⟩] ∧
      (login twoUserDB "alice" "pw1" compareDemo "L1" 5).2.session.filter
        (fun s => s.userId != aliceUser.id) =
        twoUserDB.session.filter (fun s => s.userId != aliceUser.id)) ∧
    (∀ db2 : DB, ∀ logId2 : String, ∀ now2 : Nat, ∀ db3 : DB,
      logout db2 logId2 now2 = .ok db3 → db3.session = []) :=
  c1_amended twoUserDB "alice" "pw1" compareDemo "L1" 5 aliceUser
    (by decide) (by decide)

/-! Claim C2. -/

/-- C2 counterexample: the value `signup` hands back re-exposes the stored
password hash.  On the empty database the returned user is exactly the
stored record, whose `passwordHash` field is the (non-empty) hash of the
submitted password. -/
theorem c2_counterexample :
    (signup DB.empty "carol" "c@x.com" "pw3" hashDemo "u1" "L1" 3).1.user =
      some c2User ∧
    c2User.passwordHash = hashDemo "pw3" ∧
    hashDemo "pw3" ≠ "" ∧
    (signup DB.empty "carol" "c@x.com" "pw3" hashDemo "u1" "L1" 3).2.users =
      [c2User] := by
  decide

/-- C2 amended: every successful `signup` returns the newly created user
record as stored — including its `passwordHash` field, which holds the
hash of the submitted password. -/
theorem c2_amended (db : DB) (username email password : String)
    (hash : String → String) (newId logId : String) (now : Nat) (u : User)
    (h : (signup db username email password hash newId logId now).1.user =
      some u) :
    u.passwordHash = hash password ∧
    u ∈ (signup db username email password hash newId logId now).2.users := by
  cases hu : getUserByUsername db username with
  | some w => simp [signup, hu] at h
  | none =>
    simp only [signup, hu] at h ⊢
    cases hc : createUser db
        { id := newId, username := username, email := email,
          passwordHash := hash password, bio := none, avatarUrl := none,
          createdAt := now, lastLogin := none } with
    | error e => simp [hc] at h
    | ok db1 =>
      simp only [hc] at h ⊢
      cases ha : addLog db1 .signup ("User " ++ username ++ " signed up")
          [] logId now with
      | error e => simp [ha] at h
      | ok db2 =>
        simp only [ha] at h ⊢
        simp only [Option.some.injEq] at h
        subst h
        refine ⟨rfl, ?_⟩
        have h2 := (addLog_frame _ _ _ _ _ _ _ ha).1
        have h1 := (createUser_ok _ _ _ hc).1
        rw [h2, h1]
        simp

/-- C2 amended witness: the concrete signup of carol on the empty database
returns the stored record with its hash. -/
theorem c2_amended_witness :
    c2User.passwordHash = hashDemo "pw3" ∧
    c2User ∈
      (signup DB.empty "carol" "c@x.com" "pw3" hashDemo "u1" "L1" 3).2.users :=
  c2_amended DB.empty "carol" "c@x.com" "pw3" hashDemo "u1" "L1" 3 c2User
    (by decide)

/-! Claim C3. -/

/-- C3: login with an unknown username and login with a known username but
a non-verifying password return literally the same failure value — the
identical generic message `'Invalid username or password'` — and leave the
database untouched, so the two failure causes are indistinguishable to the
caller (no username enumeration). -/
theorem c3_theorem (db : DB) (username password : String)
    (compare : String → String → Bool) (logId : String) (now : Nat) :
    (getUserByUsername db username = none →
      login db username password compare logId now =
        (⟨false, "Invalid username or password", none⟩, db)) ∧
    (∀ u : User, getUserByUsername db username = some u →
      compare password u.passwordHash = false →
      login db username password compare logId now =
        (⟨false, "Invalid username or password", none⟩, db)) := by
  constructor
  · intro h
    unfold login
    rw [h]
  · intro u h hc
    unfold login
    rw [h]
    simp [hc]

/-- C3 witness: in the two-user database, a login as the nonexistent
charlie and a login as alice with the wrong password produce the very same
result value. -/
theorem c3_witness :
    login twoUserDB "charlie" "pw" compareDemo "L1" 1 =
      (⟨false, "Invalid username or password", none⟩, twoUserDB) ∧
    login twoUserDB "alice" "wrong" compareDemo "L1" 1 =
      (⟨false, "Invalid username or password", none⟩, twoUserDB) :=
  ⟨(c3_theorem twoUserDB "charlie" "pw" compareDemo "L1" 1).1 (by decide),
   (c3_theorem twoUserDB "alice" "wrong" compareDemo "L1" 1).2 aliceUser
     (by decide) (by decide)⟩

/-! Claim C4. -/

/-- C4 counterexample: a signup whose email collides with an existing
user's unique-indexed email does NOT produce an "already exists" result —
the Constraint violation is swallowed by the generic catch, which answers
`'Failed to create account'`.  No new record is created and nothing
crashes, but the user-facing result is the generic failure, not an
already-exists one. -/
theorem c4_counterexample :
    (signup oneUserDB "bob" "a@x.com" "pw2" hashDemo "u2" "L1" 9).1.success =
      false ∧
    (signup oneUserDB "bob" "a@x.com" "pw2" hashDemo "u2" "L1" 9).1.message =
      "Failed to create account" ∧
    (signup oneUserDB "bob" "a@x.com" "pw2" hashDemo "u2" "L1" 9).1.message ≠
      "Username already exists" ∧
    (signup oneUserDB "bob" "a@x.com" "pw2" hashDemo "u2" "L1" 9).2 =
      oneUserDB := by
  decide

/-- C4 amended: a colliding signup never crashes with a raw storage error
and never creates a record, but the user-facing result differs by cause: a
taken username is answered with the AlreadyExists message
`'Username already exists'`, while an email collision (username free) hits
the unique `by-email` index and is surfaced as the generic
`'Failed to create account'` failure. -/
theorem c4_amended (db : DB) (username email password : String)
    (hash : String → String) (newId logId : String) (now : Nat) :
    (∀ u : User, getUserByUsername db username = some u →
      signup db username email password hash newId logId now =
        (⟨false, "Username already exists", none⟩, db)) ∧
    (getUserByUsername db username = none →
      db.users.any (fun u => u.email == email) = true →
      signup db username email password hash newId logId now =
        (⟨false, "Failed to create account", none⟩, db)) := by
  constructor
  · intro u h
    unfold signup
    rw [h]
  · intro h he
    have hc : createUser db
        { id := newId, username := username, email := email,
          passwordHash := hash password, bio := none, avatarUrl := none,
          createdAt := now, lastLogin := none } = .error .constraint :=
      createUser_email_collision db _ he
    simp only [signup, h, hc]

/-- C4 amended witness: against the database holding alice, signing up
with alice's username and signing up with a fresh username but alice's
email produce the two amended outcomes. -/
theorem c4_amended_witness :
    signup oneUserDB "alice" "z@z.com" "pw9" hashDemo "u9" "L1" 9 =
      (⟨false, "Username already exists", none⟩, oneUserDB) ∧
    signup oneUserDB "bob" "a@x.com" "pw2" hashDemo "u2" "L1" 9 =
      (⟨false, "Failed to create account", none⟩, oneUserDB) :=
  ⟨(c4_amended oneUserDB "alice" "z@z.com" "pw9" hashDemo "u9" "L1" 9).1
      aliceUser (by decide),
   (c4_amended oneUserDB "bob" "a@x.com" "pw2" hashDemo "u2" "L1" 9).2
      (by decide) (by decide)⟩

/-! Claim C5. -/

/-- C5: a delete requested by anyone other than the owning user is refused
with the permission-denied outcome before any write, the database is left
exactly as it was — so the video record keeps every field — and
`getAllVideos()` afterwards still includes it. -/
theorem c5_theorem (db : DB) (video : Video) (user : User) (confirmed : Bool)
    (logId : String) (now : Nat) (h : user.id ≠ video.userId) :
    handleDelete db video user confirmed logId now = (.permissionDenied, db) ∧
    (video ∈ getAllVideos db →
      video ∈ getAllVideos (handleDelete db video user confirmed logId now).2) := by
  have hb : (user.id != video.userId) = true := by simp [h]
  constructor
  · unfold handleDelete
    rw [hb]
    rfl
  · intro hm
    unfold handleDelete
    rw [hb]
    exact hm

/-- C5 witness: bob cannot delete alice's stored video; the database is
untouched and the video is still listed. -/
theorem c5_witness :
    handleDelete videoDB demoVideo bobUser true "L1" 1 =
      (.permissionDenied, videoDB) ∧
    (demoVideo ∈ getAllVideos videoDB →
      demoVideo ∈ getAllVideos (handleDelete videoDB demoVideo bobUser true "L1" 1).2) :=
  c5_theorem videoDB demoVideo bobUser true "L1" 1 (by decide)

/-! Claim C6. -/

/-- C6 counterexample: posting the text `" hello "` (whose trimmed form is
non-empty) appends one comment, but the stored comment's text is the
trimmed `"hello"`, not the posted `" hello "` — the claim's "last
element's text equals the posted text" fails for text with surrounding
whitespace. -/
theorem c6_counterexample :
    ((handleComment videoDB demoVideo aliceUser " hello " "c1" "L1" 4).2.1.videos.find?
        (fun w => w.id == "v1")).map (fun w => w.comments.map (fun c => c.text)) =
      some ["hello"] ∧
    "hello" ≠ " hello " := by
  decide

/-- C6 amended: empty or whitespace-only text is rejected and changes
nothing; text with a non-empty trimmed form appends exactly one comment
carrying the fresh id, the current timestamp and the TRIMMED posted text,
to both the returned video and the persisted record (so for already
trimmed text such as `"hello"` the stored text equals the posted text). -/
theorem c6_amended (db : DB) (video : Video) (user : User) (text : String)
    (commentId logId : String) (now : Nat) :
    (jsTrim text = "" →
      handleComment db video user text commentId logId now =
        (.rejected, db, true)) ∧
    (jsTrim text ≠ "" →
      (handleComment db video user text commentId logId now).1 =
        .posted { video with comments := video.comments ++
          [Comment.mk commentId user.id user.username (jsTrim text) now] } ∧
      (handleComment db video user text commentId logId now).2.1.videos.find?
          (fun w => w.id == video.id) =
        some { video with comments := video.comments ++
          [Comment.mk commentId user.id user.username (jsTrim text) now] } ∧
      (video.comments ++
          [Comment.mk commentId user.id user.username (jsTrim text) now]).length =
        video.comments.length + 1 ∧
      ((video.comments ++
          [Comment.mk commentId user.id user.username (jsTrim text) now]).getLast?).map
          (fun c => c.text) =
        some (jsTrim text)) := by
  constructor
  · intro h
    have hb : (jsTrim text == "") = true := by simp [h]
    unfold handleComment
    rw [hb]
    rfl
  · intro h
    have hb : (jsTrim text == "") = false := by simp [h]
    have hfind : ∀ dbx : DB,
        (updateVideo dbx { video with comments := video.comments ++
          [Comment.mk commentId user.id user.username (jsTrim text) now] }).videos.find?
          (fun w => w.id == video.id) =
        some { video with comments := video.comments ++
          [Comment.mk commentId user.id user.username (jsTrim text) now] } := by
      intro dbx
      have hu := updateVideo_find? dbx { video with comments := video.comments ++
        [Comment.mk commentId user.id user.username (jsTrim text) now] }
      simpa using hu
    refine ⟨?_, ?_, by simp, by simp⟩
    · unfold handleComment
      rw [hb]
      simp only [Bool.false_eq_true, if_false]
      cases ha : addLog (updateVideo db { video with comments := video.comments ++
          [Comment.mk commentId user.id user.username (jsTrim text) now] })
          .comment ("Commented on video: " ++ video.caption)
          [("videoId", video.id)] logId now with
      | error e => simp
      | ok db2 => simp
    · unfold handleComment
      rw [hb]
      simp only [Bool.false_eq_true, if_false]
      cases ha : addLog (updateVideo db { video with comments := video.comments ++
          [Comment.mk commentId user.id user.username (jsTrim text) now] })
          .comment ("Commented on video: " ++ video.caption)
          [("videoId", video.id)] logId now with
      | error e =>
        simp only []
        exact hfind db
      | ok db2 =>
        simp only []
        rw [(addLog_frame _ _ _ _ _ _ _ ha).2.1]
        exact hfind db

/-- C6 amended witness: at concrete inputs, whitespace-only text is
rejected and `" hello "` is stored trimmed with the fresh id `c1` and
timestamp 4. -/
theorem c6_amended_witness :
    handleComment videoDB demoVideo aliceUser "   " "c0" "L0" 3 =
      (.rejected, videoDB, true) ∧
    (handleComment videoDB demoVideo aliceUser " hello " "c1" "L1" 4).1 =
      .posted { demoVideo with comments := demoVideo.comments ++
        [⟨"c1", aliceUser.id, aliceUser.username, jsTrim " hello ", 4⟩] } :=
  ⟨(c6_amended videoDB demoVideo aliceUser "   " "c0" "L0" 3).1 (by decide),
   ((c6_amended videoDB demoVideo aliceUser " hello " "c1" "L1" 4).2
      (by decide)).1⟩

/-! Claim C7. -/

/-- Rebuilding a string from its character data is the identity. -/
theorem stringMk_data (s : String) : String.mk s.data = s := by
  cases s
  rfl

/-- Stripping the local scheme undoes prefixing it. -/
theorem stripLocalScheme_append (p : String) :
    stripLocalScheme (localScheme ++ p) = p := by
  unfold stripLocalScheme
  rw [String.data_append, List.drop_left, stringMk_data]

/-- A URI built by prefixing the local scheme starts with it. -/
theorem startsWithLocal_append (p : String) :
    startsWithLocal (localScheme ++ p) = true := by
  unfold startsWithLocal
  rw [String.data_append]
  simp [List.isPrefixOf_iff_prefix]

/-- Putting a blob and reading it back at the same key yields the blob. -/
theorem getVideoBlob_saveVideoBlob (db : DB) (pid : String) (b : Blob) :
    getVideoBlob (saveVideoBlob db pid b) pid = some b := by
  unfold getVideoBlob saveVideoBlob
  have h := find?_filterNe_append (fun kv : String × Blob => kv.1)
    db.videoBlobs (pid, b)
  simp only at h
  rw [h]
  rfl

/-- C7: local-mode ingestion round trip.  For every file, `mockUpload`
returns a `secure_url` using the reserved `local://` scheme and reporting
`bytes = file.size`, and resolving that URI along the playback path —
stripping the scheme and fetching from the `videoBlobs` store — yields the
stored blob, whose size is the ingested file's size. -/
theorem c7_theorem (db : DB) (file : Blob) (now : Nat)
    (duration width height : Nat) (thumbnailUrl : String) :
    startsWithLocal
      (mockUpload db file now duration width height thumbnailUrl).1.secure_url =
      true ∧
    (mockUpload db file now duration width height thumbnailUrl).1.bytes =
      file.size ∧
    getVideoBlob (mockUpload db file now duration width height thumbnailUrl).2
      (stripLocalScheme
        (mockUpload db file now duration width height thumbnailUrl).1.secure_url) =
      some file ∧
    (getVideoBlob (mockUpload db file now duration width height thumbnailUrl).2
      (stripLocalScheme
        (mockUpload db file now duration width height thumbnailUrl).1.secure_url)).map
      Blob.size = some file.size := by
  refine ⟨?_, rfl, ?_, ?_⟩
  · exact startsWithLocal_append ("local_" ++ toString now)
  · show getVideoBlob (saveVideoBlob db ("local_" ++ toString now) file)
      (stripLocalScheme (localScheme ++ ("local_" ++ toString now))) = some file
    rw [stripLocalScheme_append]
    exact getVideoBlob_saveVideoBlob db _ file
  · show (getVideoBlob (saveVideoBlob db ("local_" ++ toString now) file)
      (stripLocalScheme (localScheme ++ ("local_" ++ toString now)))).map
      Blob.size = some file.size
    rw [stripLocalScheme_append, getVideoBlob_saveVideoBlob]
    rfl

/-! Claim C8. -/

/-- C8: playback URI resolution.  A URI not using the local scheme is used
directly as the playable source.  A local URI is stripped of its scheme
and the blob is fetched with up to `maxAttempts = 3` tries: if every one
of attempts 1, 2 and 3 misses, the consumer concludes the blob is missing
and surfaces the video-unavailable state — the outcome never consults any
attempt beyond the third — while a hit on an attempt resolves to that
blob; the backoff `250 * attempt` between attempts is strictly
increasing. -/
theorem c8_theorem (url : String) (fetch : Nat → Option Blob) :
    (startsWithLocal url = false → resolveLocalUrl url fetch = .direct url) ∧
    (startsWithLocal url = true →
      ((fetch 1 = none → fetch 2 = none → fetch 3 = none →
          resolveLocalUrl url fetch = .unavailable) ∧
        (∀ b : Blob, fetch 1 = none → fetch 2 = none → fetch 3 = some b →
          resolveLocalUrl url fetch = .resolved b))) ∧
    (∀ fetch2 : Nat → Option Blob,
      fetch2 1 = fetch 1 → fetch2 2 = fetch 2 → fetch2 3 = fetch 3 →
      resolveLocalUrl url fetch2 = resolveLocalUrl url fetch) ∧
    maxAttempts = 3 ∧
    (∀ a : Nat, backoffMs a < backoffMs (a + 1)) := by
  refine ⟨?_, ?_, ?_, rfl, ?_⟩
  · intro h
    unfold resolveLocalUrl
    rw [h]
    rfl
  · intro h
    constructor
    · intro h1 h2 h3
      unfold resolveLocalUrl
      rw [h]
      simp only [if_true, maxAttempts, retryGetBlob, h1, h2, h3]
    · intro b h1 h2 h3
      unfold resolveLocalUrl
      rw [h]
      simp only [if_true, maxAttempts, retryGetBlob, h1, h2, h3]
  · intro fetch2 e1 e2 e3
    unfold resolveLocalUrl
    simp only [maxAttempts, retryGetBlob, e1, e2, e3]
  · intro a
    unfold backoffMs
    omega

/-- C8 witness: a non-local URI is used directly; for the concrete local
URI a store that never yields the blob ends in the unavailable state after
the three attempts, and a store that only yields it from attempt 3 on is
resolved on the third try. -/
theorem c8_witness :
    resolveLocalUrl "https://cdn.example/v.mp4" (fun _ => none) =
      .direct "https://cdn.example/v.mp4" ∧
    resolveLocalUrl "local://local_7" (fun _ => none) = .unavailable ∧
    resolveLocalUrl "local://local_7"
      (fun a => if 3 ≤ a then some demoBlob else none) = .resolved demoBlob :=
  ⟨( c8_theorem "https://cdn.example/v.mp4" (fun _ => none)).1 (by decide),
   (( c8_theorem "local://local_7" (fun _ => none)).2.1 (by decide)).1
     rfl rfl rfl,
   (( c8_theorem "local://local_7"
       (fun a => if 3 ≤ a then some demoBlob else none)).2.1 (by decide)).2
     demoBlob (by decide) (by decide) (by decide)⟩

/-! Claim C9. -/

/-- The client-side video `handleLike` returns, and the store content it
persists, regardless of whether the `like` log append succeeded. -/
theorem handleLike_parts (db : DB) (video : Video) (liked : Bool)
    (logId : String) (now : Nat) :
    (handleLike db video liked logId now).1 =
      { video with likes := if liked then video.likes - 1 else video.likes + 1 } ∧
    (handleLike db video liked logId now).2.1.videos =
      (updateVideo db { video with
        likes := if liked then video.likes - 1 else video.likes + 1 }).videos := by
  simp only [handleLike]
  cases h : addLog (updateVideo db { video with
      likes := if liked then video.likes - 1 else video.likes + 1 }) .like
      ((if liked then "Unliked" else "Liked") ++ " video: " ++ video.caption)
      [("videoId", video.id)] logId now with
  | error e => exact ⟨rfl, rfl⟩
  | ok db2 =>
    refine ⟨rfl, ?_⟩
    exact (addLog_frame _ _ _ _ _ _ _ h).2.1

/-- C9: toggleLike round trip.  Starting from any state, a like
(`currentlyLiked = false`) immediately followed by an unlike
(`currentlyLiked = true`) on the resulting video hands back a video whose
like count equals the original `video.likes`, and the record persisted in
the video store is exactly the original record again. -/
theorem c9_theorem (db : DB) (video : Video) (logId1 logId2 : String)
    (now1 now2 : Nat) :
    (handleLike (handleLike db video false logId1 now1).2.1
        (handleLike db video false logId1 now1).1 true logId2 now2).1.likes =
      video.likes ∧
    (handleLike (handleLike db video false logId1 now1).2.1
        (handleLike db video false logId1 now1).1 true logId2 now2).2.1.videos.find?
      (fun w => w.id == video.id) = some video := by
  have h1 := handleLike_parts db video false logId1 now1
  have hv1 : (handleLike db video false logId1 now1).1 =
      { video with likes := video.likes + 1 } := by
    simpa using h1.1
  have h2 := handleLike_parts (handleLike db video false logId1 now1).2.1
    (handleLike db video false logId1 now1).1 true logId2 now2
  have hback : { (handleLike db video false logId1 now1).1 with
      likes := (handleLike db video false logId1 now1).1.likes - 1 } = video := by
    rw [hv1]
    simp
  constructor
  · rw [h2.1]
    simp [hv1]
  · rw [h2.2]
    have hs : { (handleLike db video false logId1 now1).1 with
        likes := if true then (handleLike db video false logId1 now1).1.likes - 1
          else (handleLike db video false logId1 now1).1.likes + 1 } = video := by
      simpa using hback
    rw [hs]
    exact updateVideo_find? _ video

/-! Claim C10. -/

/-- C10: the watch-page load (`recordView`) increments only `views`.  When
the video is found, the page shows and persists a record whose `views` is
the stored value plus one while the likes count, comment list, caption,
tags, media URI, thumbnail URI, owning user id, username, duration,
resolution and upload time all keep their prior values, and every other
video record in the store is untouched. -/
theorem c10_theorem (db : DB) (videoId logId : String) (now : Nat)
    (cur : Video)
    (h : (getAllVideos db).find? (fun v => v.id == videoId) = some cur) :
    (loadVideo db videoId logId now).1 =
      some { cur with views := cur.views + 1 } ∧
    (loadVideo db videoId logId now).2.1.videos.find?
        (fun w => w.id == videoId) =
      some { cur with views := cur.views + 1 } ∧
    { cur with views := cur.views + 1 }.views = cur.views + 1 ∧
    { cur with views := cur.views + 1 }.likes = cur.likes ∧
    { cur with views := cur.views + 1 }.comments = cur.comments ∧
    { cur with views := cur.views + 1 }.caption = cur.caption ∧
    { cur with views := cur.views + 1 }.tags = cur.tags ∧
    { cur with views := cur.views + 1 }.cloudinaryUrl = cur.cloudinaryUrl ∧
    { cur with views := cur.views + 1 }.thumbnailUrl = cur.thumbnailUrl ∧
    { cur with views := cur.views + 1 }.userId = cur.userId ∧
    { cur with views := cur.views + 1 }.username = cur.username ∧
    { cur with views := cur.views + 1 }.duration = cur.duration ∧
    { cur with views := cur.views + 1 }.resolution = cur.resolution ∧
    { cur with views := cur.views + 1 }.uploadedAt = cur.uploadedAt ∧
    (loadVideo db videoId logId now).2.1.videos.filter
        (fun w => w.id != videoId) =
      db.videos.filter (fun w => w.id != videoId) := by
  have hid : cur.id = videoId := by
    have := List.find?_some h
    simpa using this
  have hvideos : (loadVideo db videoId logId now).1 =
      some { cur with views := cur.views + 1 } ∧
      (loadVideo db videoId logId now).2.1.videos =
      (updateVideo db { cur with views := cur.views + 1 }).videos := by
    simp only [loadVideo, h]
    cases ha : addLog (updateVideo db { cur with views := cur.views + 1 })
        .view ("Watched video: " ++ cur.caption) [("videoId", videoId)]
        logId now with
    | error e => exact ⟨rfl, rfl⟩
    | ok db2 =>
      refine ⟨rfl, ?_⟩
      exact (addLog_frame _ _ _ _ _ _ _ ha).2.1
  refine ⟨hvideos.1, ?_, rfl, rfl, rfl, rfl, rfl, rfl, rfl, rfl, rfl, rfl,
    rfl, rfl, ?_⟩
  · rw [hvideos.2]
    have hu := updateVideo_find? db { cur with views := cur.views + 1 }
    simp only [hid] at hu
    simpa [hid] using hu
  · rw [hvideos.2]
    unfold updateVideo
    simp only [hid, List.filter_append, List.filter_filter]
    have hone : ∀ w : Video, ((w.id != videoId) && (w.id != videoId)) =
        (w.id != videoId) := by
      intro w
      exact Bool.and_self _
    simp only [hone]
    simp

/-- C10 witness: loading the stored concrete video bumps only its view
count; every other field and every other record is unchanged. -/
theorem c10_witness :
    (loadVideo videoDB "v1" "L1" 2).1 =
      some { demoVideo with views := demoVideo.views + 1 } ∧
    (loadVideo videoDB "v1" "L1" 2).2.1.videos.find?
        (fun w => w.id == "v1") =
      some { demoVideo with views := demoVideo.views + 1 } ∧
    { demoVideo with views := demoVideo.views + 1 }.views = demoVideo.views + 1 ∧
    { demoVideo with views := demoVideo.views + 1 }.likes = demoVideo.likes ∧
    { demoVideo with views := demoVideo.views + 1 }.comments = demoVideo.comments ∧
    { demoVideo with views := demoVideo.views + 1 }.caption = demoVideo.caption ∧
    { demoVideo with views := demoVideo.views + 1 }.tags = demoVideo.tags ∧
    { demoVideo with views := demoVideo.views + 1 }.cloudinaryUrl = demoVideo.cloudinaryUrl ∧
    { demoVideo with views := demoVideo.views + 1 }.thumbnailUrl = demoVideo.thumbnailUrl ∧
    { demoVideo with views := demoVideo.views + 1 }.userId = demoVideo.userId ∧
    { demoVideo with views := demoVideo.views + 1 }.username = demoVideo.username ∧
    { demoVideo with views := demoVideo.views + 1 }.duration = demoVideo.duration ∧
    { demoVideo with views := demoVideo.views + 1 }.resolution = demoVideo.resolution ∧
    { demoVideo with views := demoVideo.views + 1 }.uploadedAt = demoVideo.uploadedAt ∧
    (loadVideo videoDB "v1" "L1" 2).2.1.videos.filter
        (fun w => w.id != "v1") =
      videoDB.videos.filter (fun w => w.id != "v1") :=
  c10_theorem videoDB "v1" "L1" 2 demoVideo (by decide)
